import Mathlib

/-!
Shallow embedding of the GPSL evaluator (src/src/vm/gpsl.rs) for checking the
natural-language specification against the code.  The embedding follows the
source statement by statement:

* Rust `Result<Option<Variable>, String>` becomes the `ok`/`err` cases of
  `Outcome`; a Rust panic (`unwrap`, `expect`, integer division by zero,
  arithmetic overflow in a debug build on a 64-bit target) becomes the
  `panic` case; a computation that runs out of fuel becomes `timeout`.
* The `VecDeque<Block>` scope stack becomes a `List Block` whose head is the
  deque front; `push_front` is cons, `pop_front` is `List.tail`.
* `HashMap<String, LocalVariable>` becomes an association list with the same
  lookup/insert observable behaviour (only `contains_key` / `get` /
  `get_mut` / `insert` are used by the source).
* The evaluator is one structurally recursive function on a fuel counter so
  every closed evaluation reduces by `rfl` / `decide`.
-/

/-- Modelled from the spec: the `crate::permission` module is not under src/.
Section 3 of the spec describes Permission as an open enumeration of named
capability tokens; the evaluator source uses the variants `Administrator` and
`StdIo` (in `GPSL::run`) and converts annotation strings with
`Permission::from_string`. -/
inductive Permission where
  | Administrator
  | StdIo
  | Other (name : String)
deriving DecidableEq

/-- Modelled from the spec: string-to-token conversion used at Block entry;
the spec says annotation strings name capabilities, with the two token names
that appear in the source recognised directly. -/
def Permission.fromString : String → Permission
  | "Administrator" => Permission.Administrator
  | "StdIo" => Permission.StdIo
  | s => Permission.Other s

/-- Modelled from the spec: the `crate::variable` module is not under src/.
Section 3 of the spec gives the Value model: Number (non-negative integer),
Text, ReturnSentinel (here `Return`, the name used by the source patterns)
and Unit (here `None`, as in `Variable::None {}`); equality is structural. -/
inductive Variable where
  | Number (value : Nat)
  | Text (value : String)
  | Return (value : Variable)
  | None
deriving DecidableEq

/-- Modelled from the spec: the `crate::node` module is not under src/.
Binary operator kinds as listed in section 3 of the spec and matched by the
evaluator source. -/
inductive NodeKind where
  | ADD
  | SUB
  | MUL
  | DIV
  | ASSIGN
  | EQ
  | NE
  | LT
  | LE
deriving DecidableEq

/-- Modelled from the spec: the `crate::node` module is not under src/.
AST variants as listed in section 3 of the spec, with the field shapes the
evaluator source destructures (`Node::Call { name, args }`,
`Node::If { condition, stmt, else_stmt }`, and so on).  `NodeNone` is
`Node::None`. -/
inductive Node where
  | Call (name : String) (args : List Node)
  | Text (value : String)
  | Number (value : Nat)
  | Operator (kind : NodeKind) (lhs rhs : Node)
  | Lvar (value : String)
  | Return (lhs : Node)
  | If (condition stmt : Node) (else_stmt : Option Node)
  | While (condition stmt : Node)
  | For (init condition update : Option Node) (stmt : Node)
  | Block (stmts : List Node) (permission : Option Node)
  | Define (name var_type : String)
  | Function (name : String) (params : List String) (body : List Node)
  | Permission (accept reject : List String)
  | NodeNone

/-- Modelled from the spec: the `crate::external_function` module is not under
src/.  Section 4.3 of the spec lists the four handler reports SUCCESS,
NOT_FOUND, REJECTED and ERROR; the evaluator source compares against
`SUCCESS` and `REJECTED`. -/
inductive ExternalFuncStatus where
  | SUCCESS
  | NOTFOUND
  | REJECTED
  | ERROR
deriving DecidableEq

/-- Modelled from the spec: handler result, a status plus an optional value
(`res.status` / `res.value` in the evaluator source). -/
structure ExternalFuncReturn where
  status : ExternalFuncStatus
  value : Option Variable
deriving DecidableEq

/-- `VariableStatus` from src/src/vm/gpsl.rs. -/
structure VariableStatus where
  initialized : Bool
deriving DecidableEq

/-- `LocalVariable` from src/src/vm/gpsl.rs. -/
structure LocalVariable where
  name : String
  value : Variable
  status : VariableStatus
deriving DecidableEq

/-- `Block` (scope frame) from src/src/vm/gpsl.rs: permission pair, local
variable table, call-boundary flag.  The source field `variables` is spelled
`vars` here because `variables` is a reserved word in Lean. -/
structure Block where
  accept : List Permission
  reject : List Permission
  vars : List (String × LocalVariable)
  is_split : Bool
deriving DecidableEq

/-- Signature of an external function handler, as stored in
`GPSL::external_func`. -/
def ExtFunc : Type :=
  String → List Variable → List Permission → List Permission → ExternalFuncReturn

/-- Runtime state `GPSL` from src/src/vm/gpsl.rs.  The `source : Source`
field is omitted: it is never read by `evaluate` or `run`.  The source field
`global_variables` (reserved, unused by the evaluator) is spelled
`global_vars` for the same reserved-word reason as `Block.vars`.  The head
of `blocks` is the front of the `VecDeque`. -/
structure GPSL where
  functions : Option (List (String × Node))
  global_vars : List Variable
  blocks : List Block
  external_func : List ExtFunc

/-- Lookup in the association-list model of `HashMap<String, LocalVariable>`. -/
def lookupVar : List (String × LocalVariable) → String → Option LocalVariable
  | [], _ => Option.none
  | (k, v) :: rest, name => if k = name then some v else lookupVar rest name

/-- Insert in the association-list model of `HashMap::insert` (replaces an
existing binding with the same key). -/
def insertVar : List (String × LocalVariable) → String → LocalVariable →
    List (String × LocalVariable)
  | [], name, v => [(name, v)]
  | (k, w) :: rest, name, v =>
    if k = name then (name, v) :: rest else (k, w) :: insertVar rest name v

/-- Lookup in the association-list model of the function table
`HashMap<String, Box<Node>>`. -/
def lookupFn : List (String × Node) → String → Option Node
  | [], _ => Option.none
  | (k, v) :: rest, name => if k = name then some v else lookupFn rest name

/-- The scan loop of `GPSL::get_local_var`: walk frames front-to-back,
return the first binding found, and stop (break) after examining a frame
with `is_split` set. -/
def get_local_var_aux : List Block → String → Option LocalVariable
  | [], _ => Option.none
  | b :: rest, name =>
    match lookupVar b.vars name with
    | some lv => some lv
    | Option.none => if b.is_split then Option.none else get_local_var_aux rest name

/-- `GPSL::get_local_var` from src/src/vm/gpsl.rs. -/
def GPSL.get_local_var (s : GPSL) (name : String) : Option LocalVariable :=
  get_local_var_aux s.blocks name

/-- The scan-and-update performed through `GPSL::get_local_var_mut` by the
ASSIGN case of the evaluator: same walk as `get_local_var`; on success the
found binding has its `value` replaced and `status.initialized` set to true
(the two consecutive `unwrap` writes in the source).  `Option.none` means
the scan failed, which makes the source panic at the `unwrap`. -/
def assign_var_aux : List Block → String → Variable → Option (List Block)
  | [], _, _ => Option.none
  | b :: rest, name, v =>
    match lookupVar b.vars name with
    | some lv =>
      some ({ b with
        vars := insertVar b.vars name
          { lv with value := v, status := { initialized := true } } } :: rest)
    | Option.none =>
      if b.is_split then Option.none
      else
        match assign_var_aux rest name v with
        | some rest2 => some (b :: rest2)
        | Option.none => Option.none

/-- State-level wrapper of `assign_var_aux`. -/
def GPSL.assign_local_var (s : GPSL) (name : String) (v : Variable) : Option GPSL :=
  match assign_var_aux s.blocks name v with
  | some bs => some { s with blocks := bs }
  | Option.none => Option.none

/-- `GPSL::extract_number` from src/src/vm/gpsl.rs. -/
def extract_number : Variable → Except String Nat
  | Variable.Number v => Except.ok v
  | _ => Except.error "Not a number"

/-- Result of one evaluation step: `Ok`, `Err`, Rust panic, or fuel
exhaustion.  `ok` and `err` carry the mutated runtime state (`self`). -/
inductive Outcome where
  | ok (v : Option Variable) (s : GPSL)
  | err (msg : String) (s : GPSL)
  | panic (msg : String)
  | timeout

/-- Panic message of `Option::unwrap` on a missing value. -/
def unwrapMsg : String := "called Option unwrap on a None value"

/-- One past the largest usize value on the 64-bit target. -/
def usizeBound : Nat := 2 ^ 64

/-- The arithmetic / comparison dispatch of `Node::Operator` for the
non-ASSIGN kinds, over two already-evaluated operands.  Overflow and
division by zero panic, as usize arithmetic does in a debug build. -/
def applyOp (kind : NodeKind) (l r : Variable) (s : GPSL) : Outcome :=
  match kind with
  | NodeKind.ADD =>
    match extract_number l with
    | Except.error e => Outcome.err e s
    | Except.ok a =>
      match extract_number r with
      | Except.error e => Outcome.err e s
      | Except.ok b =>
        if a + b < usizeBound then Outcome.ok (some (Variable.Number (a + b))) s
        else Outcome.panic "attempt to add with overflow"
  | NodeKind.DIV =>
    match extract_number l with
    | Except.error e => Outcome.err e s
    | Except.ok a =>
      match extract_number r with
      | Except.error e => Outcome.err e s
      | Except.ok b =>
        if b = 0 then Outcome.panic "attempt to divide by zero"
        else Outcome.ok (some (Variable.Number (a / b))) s
  | NodeKind.MUL =>
    match extract_number l with
    | Except.error e => Outcome.err e s
    | Except.ok a =>
      match extract_number r with
      | Except.error e => Outcome.err e s
      | Except.ok b =>
        if a * b < usizeBound then Outcome.ok (some (Variable.Number (a * b))) s
        else Outcome.panic "attempt to multiply with overflow"
  | NodeKind.SUB =>
    match extract_number l with
    | Except.error e => Outcome.err e s
    | Except.ok a =>
      match extract_number r with
      | Except.error e => Outcome.err e s
      | Except.ok b =>
        if b ≤ a then Outcome.ok (some (Variable.Number (a - b))) s
        else Outcome.panic "attempt to subtract with overflow"
  | NodeKind.EQ =>
    if l = r then Outcome.ok (some (Variable.Number 1)) s
    else Outcome.ok (some (Variable.Number 0)) s
  | NodeKind.NE =>
    if l ≠ r then Outcome.ok (some (Variable.Number 1)) s
    else Outcome.ok (some (Variable.Number 0)) s
  | NodeKind.LT =>
    match extract_number l with
    | Except.error e => Outcome.err e s
    | Except.ok a =>
      match extract_number r with
      | Except.error e => Outcome.err e s
      | Except.ok b =>
        if a < b then Outcome.ok (some (Variable.Number 1)) s
        else Outcome.ok (some (Variable.Number 0)) s
  | NodeKind.LE =>
    match extract_number l with
    | Except.error e => Outcome.err e s
    | Except.ok a =>
      match extract_number r with
      | Except.error e => Outcome.err e s
      | Except.ok b =>
        if a ≤ b then Outcome.ok (some (Variable.Number 1)) s
        else Outcome.ok (some (Variable.Number 0)) s
  | NodeKind.ASSIGN => Outcome.ok Option.none s

/-- The external dispatch loop of `Node::Call`: probe handlers in order;
`SUCCESS` stops with the optional value, `REJECTED` stops with the rejection
error, anything else (NOT_FOUND, and also ERROR, which the source never
tests) falls through to the next handler; exhaustion is the
function-not-found error. -/
def searchExternal (fs : List ExtFunc) (name : String) (args : List Variable)
    (accept reject : List Permission) : Except String (Option Variable) :=
  match fs with
  | [] => Except.error ("Function not found: " ++ name)
  | f :: rest =>
    let res := f name args accept reject
    if res.status = ExternalFuncStatus.SUCCESS then Except.ok res.value
    else if res.status = ExternalFuncStatus.REJECTED then
      Except.error "External function rejected."
    else searchExternal rest name args accept reject

/-- External dispatch at state level.  The source reads
`self.blocks.front().unwrap()` inside the loop, so with a non-empty stack the
loop equals `searchExternal` on the front permissions, while an empty stack
panics as soon as one handler exists (with no handler the loop body never
runs and the not-found error is returned). -/
def dispatchExternal (s : GPSL) (name : String) (args : List Variable) : Outcome :=
  match s.blocks.head? with
  | some b =>
    match searchExternal s.external_func name args b.accept b.reject with
    | Except.ok v => Outcome.ok v s
    | Except.error e => Outcome.err e s
  | Option.none =>
    match s.external_func with
    | [] => Outcome.err ("Function not found: " ++ name) s
    | _ :: _ => Outcome.panic unwrapMsg

/-- The `Node::Define` case: compute the default value first (unknown type
names are an error before the frame stack is touched), then insert into the
front frame (`front_mut().unwrap()`). -/
def defineVar (s : GPSL) (name var_type : String) : Outcome :=
  match (if var_type = "num" then some (Variable.Number 0)
         else if var_type = "String" then some (Variable.Text "")
         else Option.none) with
  | Option.none => Outcome.err (var_type ++ ": 未知の型です。") s
  | some v =>
    match s.blocks with
    | [] => Outcome.panic unwrapMsg
    | front :: rest =>
      let lv : LocalVariable := ⟨name, v, ⟨false⟩⟩
      let front2 : Block := { front with vars := insertVar front.vars name lv }
      Outcome.ok Option.none { s with blocks := front2 :: rest }

/-- Work items of the evaluator: a node to evaluate, or one of the internal
loops of `GPSL::evaluate` (argument collection and the function-body loop of
`Node::Call`, the statement loop of `Node::Block`, and the While / For
iteration). -/
inductive EvalTask where
  | node (n : Node)
  | callArgs (name : String) (args : List Node) (acc : List Variable)
  | callBody (body : List Node)
  | blockStmts (stmts : List Node)
  | whileCont (condition stmt : Node) (cond : Variable)
  | forCond (condition update : Option Node) (stmt : Node)
  | forCont (condition update : Option Node) (stmt : Node) (cond : Variable)
  | forAfterBody (condition update : Option Node) (stmt : Node)

/-- `GPSL::evaluate` from src/src/vm/gpsl.rs, driven by a fuel counter; every
recursive step costs one unit of fuel.  Each `Task` case mirrors the
corresponding region of the source:

* `node`: the top-level `match *node`;
* `callArgs`: the argument loop (whose `expect` turns an argument error into
  a panic) followed by the table test and the fallthrough to the external
  registry;
* `callBody`: the per-statement loop of a script-function call, which pushes
  a fresh `is_split` frame before each top-level statement and pops it only
  after a statement that neither returns nor fails;
* `blockStmts`: the statement loop of `Node::Block`, which pops its frame
  only on normal completion;
* `whileCont` / `forCond` / `forCont` / `forAfterBody`: the While and For
  loops, whose body result is discarded (`self.evaluate(stmt.clone())?;`). -/
def evaluate : Nat → GPSL → EvalTask → Outcome
  | 0, _, _ => Outcome.timeout
  | Nat.succ fuel, s, task =>
    match task with
    | EvalTask.node n =>
      match n with
      | Node.Call name args => evaluate fuel s (EvalTask.callArgs name args [])
      | Node.Text v => Outcome.ok (some (Variable.Text v)) s
      | Node.Number v => Outcome.ok (some (Variable.Number v)) s
      | Node.Operator kind lhs rhs =>
        if kind = NodeKind.ASSIGN then
          match evaluate fuel s (EvalTask.node rhs) with
          | Outcome.ok (some v) s1 =>
            (match lhs with
             | Node.Lvar name =>
               (match s1.assign_local_var name v with
                | some s2 => Outcome.ok Option.none s2
                | Option.none => Outcome.panic unwrapMsg)
             | _ => Outcome.ok Option.none s1)
          | Outcome.ok Option.none s1 => Outcome.ok Option.none s1
          | Outcome.err _ s1 => Outcome.ok Option.none s1
          | Outcome.panic m => Outcome.panic m
          | Outcome.timeout => Outcome.timeout
        else
          match evaluate fuel s (EvalTask.node lhs) with
          | Outcome.err _ _ => Outcome.panic "Cannot evaluate lhs."
          | Outcome.panic m => Outcome.panic m
          | Outcome.timeout => Outcome.timeout
          | Outcome.ok l s1 =>
            match evaluate fuel s1 (EvalTask.node rhs) with
            | Outcome.err _ _ => Outcome.panic "Cannot evaluate rhs."
            | Outcome.panic m => Outcome.panic m
            | Outcome.timeout => Outcome.timeout
            | Outcome.ok r s2 =>
              match l, r with
              | some lv, some rv => applyOp kind lv rv s2
              | some _, Option.none => Outcome.err "RHS Variable is null." s2
              | Option.none, _ => Outcome.err "LHS Variable is null." s2
      | Node.Lvar name =>
        (match s.get_local_var name with
         | some lv => Outcome.ok (some lv.value) s
         | Option.none => Outcome.panic unwrapMsg)
      | Node.Return lhs =>
        match evaluate fuel s (EvalTask.node lhs) with
        | Outcome.ok (some v) s1 => Outcome.ok (some (Variable.Return v)) s1
        | Outcome.ok Option.none s1 => Outcome.err "Cannot evaluate LHS." s1
        | Outcome.err _ s1 => Outcome.err "Cannot evaluate LHS." s1
        | Outcome.panic m => Outcome.panic m
        | Outcome.timeout => Outcome.timeout
      | Node.If condition stmt else_stmt =>
        match evaluate fuel s (EvalTask.node condition) with
        | Outcome.ok (some c) s1 =>
          if c = Variable.Number 1 then
            match evaluate fuel s1 (EvalTask.node stmt) with
            | Outcome.ok (some (Variable.Return v)) s2 =>
              Outcome.ok (some (Variable.Return v)) s2
            | Outcome.ok _ s2 => Outcome.ok Option.none s2
            | Outcome.err _ s2 => Outcome.ok Option.none s2
            | Outcome.panic m => Outcome.panic m
            | Outcome.timeout => Outcome.timeout
          else
            (match else_stmt with
             | some e =>
               (match evaluate fuel s1 (EvalTask.node e) with
                | Outcome.ok (some (Variable.Return v)) s2 =>
                  Outcome.ok (some (Variable.Return v)) s2
                | Outcome.ok _ s2 => Outcome.ok Option.none s2
                | Outcome.err _ s2 => Outcome.ok Option.none s2
                | Outcome.panic m => Outcome.panic m
                | Outcome.timeout => Outcome.timeout)
             | Option.none => Outcome.ok Option.none s1)
        | Outcome.ok Option.none s1 => Outcome.ok Option.none s1
        | Outcome.err _ s1 => Outcome.ok Option.none s1
        | Outcome.panic m => Outcome.panic m
        | Outcome.timeout => Outcome.timeout
      | Node.While condition stmt =>
        match evaluate fuel s (EvalTask.node condition) with
        | Outcome.ok r s1 =>
          evaluate fuel s1 (EvalTask.whileCont condition stmt (r.getD (Variable.Number 0)))
        | Outcome.err m s1 => Outcome.err m s1
        | Outcome.panic m => Outcome.panic m
        | Outcome.timeout => Outcome.timeout
      | Node.For init condition update stmt =>
        (match init with
         | some i =>
           (match evaluate fuel s (EvalTask.node i) with
            | Outcome.ok _ s1 => evaluate fuel s1 (EvalTask.forCond condition update stmt)
            | Outcome.err m s1 => Outcome.err m s1
            | Outcome.panic m => Outcome.panic m
            | Outcome.timeout => Outcome.timeout)
         | Option.none => evaluate fuel s (EvalTask.forCond condition update stmt))
      | Node.Block stmts permission =>
        match s.blocks.head? with
        | Option.none => Outcome.panic unwrapMsg
        | some front =>
          let pr :=
            match permission with
            | some (Node.Permission acc rej) =>
              (acc.map Permission.fromString, rej.map Permission.fromString)
            | _ => (front.accept, front.reject)
          evaluate fuel
            { s with blocks :=
                { accept := pr.1, reject := pr.2, vars := [], is_split := false }
                  :: s.blocks }
            (EvalTask.blockStmts stmts)
      | Node.Define name var_type => defineVar s name var_type
      | Node.Function _ _ _ => Outcome.ok Option.none s
      | Node.Permission _ _ => Outcome.ok Option.none s
      | Node.NodeNone => Outcome.ok Option.none s
    | EvalTask.callArgs name args acc =>
      match args with
      | [] =>
        (match s.functions with
         | some fns =>
           (match lookupFn fns name with
            | some (Node.Function _ _ body) => evaluate fuel s (EvalTask.callBody body)
            | some _ => Outcome.ok Option.none s
            | Option.none => dispatchExternal s name acc)
         | Option.none => dispatchExternal s name acc)
      | arg :: rest =>
        match evaluate fuel s (EvalTask.node arg) with
        | Outcome.ok (some v) s1 => evaluate fuel s1 (EvalTask.callArgs name rest (acc ++ [v]))
        | Outcome.ok Option.none s1 => evaluate fuel s1 (EvalTask.callArgs name rest acc)
        | Outcome.err _ _ => Outcome.panic "Cannot evaluate"
        | Outcome.panic m => Outcome.panic m
        | Outcome.timeout => Outcome.timeout
    | EvalTask.callBody body =>
      match body with
      | [] => Outcome.ok Option.none s
      | program :: rest =>
        match s.blocks.head? with
        | Option.none => Outcome.panic unwrapMsg
        | some front =>
          match evaluate fuel
              { s with blocks :=
                  { accept := front.accept, reject := front.reject,
                    vars := [], is_split := true } :: s.blocks }
              (EvalTask.node program) with
          | Outcome.ok (some (Variable.Return v)) s2 => Outcome.ok (some v) s2
          | Outcome.ok _ s2 =>
            evaluate fuel { s2 with blocks := s2.blocks.tail } (EvalTask.callBody rest)
          | Outcome.err m s2 => Outcome.err m s2
          | Outcome.panic m => Outcome.panic m
          | Outcome.timeout => Outcome.timeout
    | EvalTask.blockStmts stmts =>
      match stmts with
      | [] => Outcome.ok Option.none { s with blocks := s.blocks.tail }
      | stmt :: rest =>
        match evaluate fuel s (EvalTask.node stmt) with
        | Outcome.ok (some (Variable.Return v)) s2 =>
          Outcome.ok (some (Variable.Return v)) s2
        | Outcome.ok _ s2 => evaluate fuel s2 (EvalTask.blockStmts rest)
        | Outcome.err m s2 => Outcome.err m s2
        | Outcome.panic m => Outcome.panic m
        | Outcome.timeout => Outcome.timeout
    | EvalTask.whileCont condition stmt cond =>
      if cond = Variable.Number 1 then
        match evaluate fuel s (EvalTask.node stmt) with
        | Outcome.ok _ s1 =>
          (match evaluate fuel s1 (EvalTask.node condition) with
           | Outcome.ok r s2 =>
             evaluate fuel s2 (EvalTask.whileCont condition stmt (r.getD (Variable.Number 0)))
           | Outcome.err m s2 => Outcome.err m s2
           | Outcome.panic m => Outcome.panic m
           | Outcome.timeout => Outcome.timeout)
        | Outcome.err m s1 => Outcome.err m s1
        | Outcome.panic m => Outcome.panic m
        | Outcome.timeout => Outcome.timeout
      else Outcome.ok Option.none s
    | EvalTask.forCond condition update stmt =>
      (match condition with
       | Option.none => evaluate fuel s (EvalTask.forCont condition update stmt (Variable.Number 1))
       | some c =>
         (match evaluate fuel s (EvalTask.node c) with
          | Outcome.ok r s1 =>
            evaluate fuel s1 (EvalTask.forCont condition update stmt (r.getD (Variable.Number 0)))
          | Outcome.err m s1 => Outcome.err m s1
          | Outcome.panic m => Outcome.panic m
          | Outcome.timeout => Outcome.timeout))
    | EvalTask.forCont condition update stmt cond =>
      if cond = Variable.Number 1 then
        match evaluate fuel s (EvalTask.node stmt) with
        | Outcome.ok _ s1 => evaluate fuel s1 (EvalTask.forAfterBody condition update stmt)
        | Outcome.err m s1 => Outcome.err m s1
        | Outcome.panic m => Outcome.panic m
        | Outcome.timeout => Outcome.timeout
      else Outcome.ok Option.none s
    | EvalTask.forAfterBody condition update stmt =>
      (match update with
       | Option.none => evaluate fuel s (EvalTask.forCond condition update stmt)
       | some u =>
         (match evaluate fuel s (EvalTask.node u) with
          | Outcome.ok _ s1 => evaluate fuel s1 (EvalTask.forCond condition update stmt)
          | Outcome.err m s1 => Outcome.err m s1
          | Outcome.panic m => Outcome.panic m
          | Outcome.timeout => Outcome.timeout))

/-- Result of `GPSL::run`: `Result<Variable, String>`, plus panic and fuel
exhaustion, with the mutated state carried on `ok` and `err`. -/
inductive RunOutcome where
  | ok (v : Variable) (s : GPSL)
  | err (msg : String) (s : GPSL)
  | panic (msg : String)
  | timeout

/-- The body loop of `GPSL::run`: evaluate top-level statements directly in
the current stack (no per-statement frame here); the first ReturnSentinel
becomes the unwrapped result, an error aborts, and normal exhaustion yields
`Variable::None`. -/
def runBody : Nat → GPSL → List Node → RunOutcome
  | _, s, [] => RunOutcome.ok Variable.None s
  | fuel, s, program :: rest =>
    match evaluate fuel s (EvalTask.node program) with
    | Outcome.ok (some (Variable.Return v)) s1 => RunOutcome.ok v s1
    | Outcome.ok _ s1 => runBody fuel s1 rest
    | Outcome.err m s1 => RunOutcome.err m s1
    | Outcome.panic m => RunOutcome.panic m
    | Outcome.timeout => RunOutcome.timeout

/-- The initial frame pushed at the top of `GPSL::run`. -/
def initialBlock : Block :=
  { accept := [Permission.Administrator, Permission.StdIo], reject := [],
    vars := [], is_split := true }

/-- The part of `GPSL::run` after the initial frame push: with a function
table present, `functions[&function_name]` panics when the key is missing
(the `Index` impl of `HashMap`); a present `Node::Function` runs its body;
anything else falls through to `Ok(Variable::None)`. -/
def runWithTable (fuel : Nat) (s : GPSL) (function_name : String) : RunOutcome :=
  match s.functions with
  | Option.none => RunOutcome.ok Variable.None s
  | some fns =>
    match lookupFn fns function_name with
    | Option.none => RunOutcome.panic "key not found in HashMap"
    | some (Node.Function _ _ body) => runBody fuel s body
    | some _ => RunOutcome.ok Variable.None s

/-- `GPSL::run` from src/src/vm/gpsl.rs: push the initial frame (which no
code path ever pops), then run the named function body. -/
def run (fuel : Nat) (s : GPSL) (function_name : String) : RunOutcome :=
  runWithTable fuel { s with blocks := initialBlock :: s.blocks } function_name

/-- Observation: the `Ok` payload of an evaluation, when it succeeded. -/
def Outcome.resultValue : Outcome → Option (Option Variable)
  | Outcome.ok v _ => some v
  | _ => Option.none

/-- Observation: the `Err` payload of an evaluation, when it failed. -/
def Outcome.errMsg : Outcome → Option String
  | Outcome.err m _ => some m
  | _ => Option.none

/-- Observation: whether the evaluation panicked. -/
def Outcome.isPanic : Outcome → Bool
  | Outcome.panic _ => true
  | _ => false

/-- Observation: the frame stack after a non-panicking evaluation. -/
def Outcome.blocksAfter : Outcome → Option (List Block)
  | Outcome.ok _ s => some s.blocks
  | Outcome.err _ s => some s.blocks
  | _ => Option.none

/-- Observation: the `Ok` payload of a `run` call. -/
def RunOutcome.valueOf : RunOutcome → Option Variable
  | RunOutcome.ok v _ => some v
  | _ => Option.none

/-- Observation: the `Err` payload of a `run` call. -/
def RunOutcome.errorOf : RunOutcome → Option String
  | RunOutcome.err m _ => some m
  | _ => Option.none

/-- Observation: whether a `run` call panicked. -/
def RunOutcome.isPanicRun : RunOutcome → Bool
  | RunOutcome.panic _ => true
  | _ => false

/-- Observation: the frame stack after a non-panicking `run` call. -/
def RunOutcome.blocksAfterRun : RunOutcome → Option (List Block)
  | RunOutcome.ok _ s => some s.blocks
  | RunOutcome.err _ s => some s.blocks
  | _ => Option.none

/-! Fixtures: concrete states, handlers and programs used by the claim
theorems below. -/

/-- An empty call-boundary frame. -/
def frameEmptySplit : Block := ⟨[], [], [], true⟩

/-- A runtime with no script functions, no frames and no handlers. -/
def sArith : GPSL := ⟨Option.none, [], [], []⟩

/-- Runtime whose table holds one function `f` whose body defines `x` in its
first top-level statement and assigns to `x` in its second. -/
def sC1 : GPSL :=
  ⟨some [("f", Node.Function "f" []
      [Node.Define "x" "num",
       Node.Operator NodeKind.ASSIGN (Node.Lvar "x") (Node.Number 7)])],
   [], [frameEmptySplit], []⟩

/-- Runtime with an empty frame stack and a single empty-bodied function
`main`. -/
def sMainEmptyBody : GPSL :=
  ⟨some [("main", Node.Function "main" [] [])], [], [], []⟩

/-- Runtime whose `main` evaluates an If whose condition raises the
type-mismatch error `Not a number` (adding a Number and a Text). -/
def sC4 : GPSL :=
  ⟨some [("main", Node.Function "main" []
      [Node.If (Node.Operator NodeKind.ADD (Node.Number 1) (Node.Text "x"))
        (Node.Number 0) Option.none])],
   [], [], []⟩

/-- Handler that always reports ERROR. -/
def handlerError : ExtFunc := fun _ _ _ _ => ⟨ExternalFuncStatus.ERROR, Option.none⟩

/-- Handler that always succeeds with the value 42. -/
def handlerNum42 : ExtFunc :=
  fun _ _ _ _ => ⟨ExternalFuncStatus.SUCCESS, some (Variable.Number 42)⟩

/-- Handler that always succeeds with the value 7. -/
def handlerNum7 : ExtFunc :=
  fun _ _ _ _ => ⟨ExternalFuncStatus.SUCCESS, some (Variable.Number 7)⟩

/-- Handler that always reports REJECTED. -/
def handlerRejected : ExtFunc := fun _ _ _ _ => ⟨ExternalFuncStatus.REJECTED, Option.none⟩

/-- Handler that always reports NOT_FOUND. -/
def handlerNotFound : ExtFunc := fun _ _ _ _ => ⟨ExternalFuncStatus.NOTFOUND, Option.none⟩

/-- Runtime with an ERROR handler registered before a succeeding handler. -/
def sC5 : GPSL := ⟨Option.none, [], [frameEmptySplit], [handlerError, handlerNum42]⟩

/-- Runtime with one frame binding `i` to `Number 0`. -/
def sC6 : GPSL :=
  ⟨Option.none, [], [⟨[], [], [("i", ⟨"i", Variable.Number 0, ⟨true⟩⟩)], true⟩], []⟩

/-- While loop over `i`: condition `i LT 2`; body block increments `i` and
returns 5 when `i EQ 1` (so the first iteration yields a ReturnSentinel). -/
def whileRetNode : Node :=
  Node.While (Node.Operator NodeKind.LT (Node.Lvar "i") (Node.Number 2))
    (Node.Block
      [Node.Operator NodeKind.ASSIGN (Node.Lvar "i")
        (Node.Operator NodeKind.ADD (Node.Lvar "i") (Node.Number 1)),
       Node.If (Node.Operator NodeKind.EQ (Node.Lvar "i") (Node.Number 1))
        (Node.Return (Node.Number 5)) Option.none]
      Option.none)

/-- Runtime with one empty call-boundary frame and nothing else. -/
def sUnboundFrame : GPSL := ⟨Option.none, [], [frameEmptySplit], []⟩

/-- Printable name of a permission token. -/
def permName : Permission → String
  | Permission.Administrator => "Administrator"
  | Permission.StdIo => "StdIo"
  | Permission.Other s => "Other:" ++ s

/-- Encoding of an accept/reject pair as text, used by the probe handler to
report which permission sets it received. -/
def encodePerms (ac rj : List Permission) : String :=
  String.intercalate "," (ac.map permName) ++ "|" ++ String.intercalate "," (rj.map permName)

/-- Probe handler: succeeds with a Return-wrapped Text holding the encoded
accept/reject pair it was given, so the sets reaching a handler become
observable in the call result. -/
def probePerm : ExtFunc :=
  fun _ _ ac rj =>
    ⟨ExternalFuncStatus.SUCCESS, some (Variable.Return (Variable.Text (encodePerms ac rj)))⟩

/-- Probe handler that succeeds with no value. -/
def probeUnit : ExtFunc := fun _ _ _ _ => ⟨ExternalFuncStatus.SUCCESS, Option.none⟩

/-- Runtime with one caller frame `b` and the permission probe handler. -/
def statePerm (b : Block) : GPSL := ⟨Option.none, [], [b], [probePerm]⟩

/-- Runtime with one caller frame `b` and the valueless probe handler. -/
def stateUnit (b : Block) : GPSL := ⟨Option.none, [], [b], [probeUnit]⟩

/-- Runtime with caller frame `b`, a script function `f` whose body calls the
external `ext`, and the permission probe handler. -/
def stateCallPerm (b : Block) : GPSL :=
  ⟨some [("f", Node.Function "f" [] [Node.Call "ext" []])], [], [b], [probePerm]⟩

/-- A frame granting Administrator, used as block-exit parent frame. -/
def bAdm : Block := ⟨[Permission.Administrator], [], [], true⟩

/-- Runtime with `bAdm` as its only frame. -/
def sC9x : GPSL := ⟨Option.none, [], [bAdm], []⟩

/-- Runtime whose `main` calls the external `ext` at top level, with the
permission probe handler registered. -/
def sC10 : GPSL :=
  ⟨some [("main", Node.Function "main" [] [Node.Call "ext" []])], [], [], [probePerm]⟩

/-- Spec section 3 scan rule, stated the way the spec words it: the frames a
lookup may consult are the frames from the most recent outward up to and
including the first call-boundary frame. -/
def framesUpToBoundary : List Block → List Block
  | [] => []
  | b :: rest => if b.is_split then [b] else b :: framesUpToBoundary rest

/-- First binding of a name in a list of frames, front to back. -/
def firstMatch : List Block → String → Option LocalVariable
  | [], _ => Option.none
  | b :: rest, name =>
    match lookupVar b.vars name with
    | some lv => some lv
    | Option.none => firstMatch rest name

/-- Spec-side resolution: first binding among the reachable frames. -/
def resolveSpec (bs : List Block) (name : String) : Option LocalVariable :=
  firstMatch (framesUpToBoundary bs) name

/-! Claim theorems. -/

/-- C1: the claim says a Call on a script-defined function pushes exactly one
call-boundary frame shared by all statements of the body, so a local defined
by one top-level statement is visible to the next.  The code instead pushes a
fresh call-boundary frame for every top-level statement of the body (the
latent defect flagged in section 9 of the spec): in `sC1`, function `f`
defines `x` in statement one and assigns to `x` in statement two, and the
call panics at the assignment because the Define landed in a frame that was
already popped.  Under the claim the call would return `Ok(None)`. -/
theorem gpsl_C1_call_uses_per_statement_frames :
    evaluate 20 sC1 (EvalTask.node (Node.Call "f" [])) = Outcome.panic unwrapMsg := rfl

/-- C2: the claim says every frame push is matched by a pop on every exit
path and each `run` leaves the frame stack as it found it.  The code never
pops the initial frame pushed by `run`: starting from an empty stack, running
the empty-bodied `main` ends with one leaked frame, and a second `run` on the
resulting state ends with two. -/
theorem gpsl_C2_run_leaks_initial_frame :
    sMainEmptyBody.blocks = []
    ∧ (run 5 sMainEmptyBody "main").blocksAfterRun = some [initialBlock]
    ∧ (run 5 { sMainEmptyBody with blocks := [initialBlock] } "main").blocksAfterRun
        = some [initialBlock, initialBlock] :=
  ⟨rfl, rfl, rfl⟩

/-- C3: the claim says `run` on a name absent from the function table returns
Unit rather than failing.  The code indexes the `HashMap` with the missing
key (`functions[&function_name]`), which panics. -/
theorem gpsl_C3_unknown_function_panics :
    run 5 sMainEmptyBody "doesNotExist" = RunOutcome.panic "key not found in HashMap" := rfl

/-- C4: the claim says the first evaluation error at any nesting depth aborts
the whole `run` and surfaces to the host.  In the code the If arm
`if let Ok(Some(condition))` silently swallows an `Err` from the condition:
`main` of `sC4` evaluates an If whose condition raises `Not a number`
(shown directly on the bare operator in the third conjunct), yet `run`
completes normally with Unit and no error. -/
theorem gpsl_C4_if_swallows_errors :
    (run 10 sC4 "main").valueOf = some Variable.None
    ∧ (run 10 sC4 "main").errorOf = Option.none
    ∧ (evaluate 5 sArith (EvalTask.node
        (Node.Operator NodeKind.ADD (Node.Number 1) (Node.Text "x")))).errMsg
        = some "Not a number" :=
  ⟨rfl, rfl, rfl⟩

/-- C5 counterexample: the claim says a handler reporting ERROR stops
dispatch immediately and fails the call with ExternalError.  In `sC5` an
ERROR handler is registered before a succeeding handler, and the call
succeeds with the second handler result 42, so ERROR did not stop dispatch. -/
theorem gpsl_C5_error_status_does_not_stop_dispatch :
    (evaluate 5 sC5 (EvalTask.node (Node.Call "ext" []))).resultValue
      = some (some (Variable.Number 42)) := rfl

/-- C5 amended: external dispatch probes handlers in registration order;
SUCCESS stops with the optional handler value as the call result, REJECTED
stops failing the call with the rejection error, while NOT_FOUND and also
ERROR fall through to the next handler; when the registry is exhausted the
call fails with the undefined-function error.  The first conjunct ties the
dispatch loop to `evaluate` on a Call that misses the function table. -/
theorem gpsl_C5_dispatch_protocol :
    (∀ (fuel : Nat) (b : Block) (efs : List ExtFunc) (name : String),
      evaluate (Nat.succ (Nat.succ fuel)) ⟨Option.none, [], [b], efs⟩
        (EvalTask.node (Node.Call name []))
      = (match searchExternal efs name [] b.accept b.reject with
         | Except.ok v => Outcome.ok v ⟨Option.none, [], [b], efs⟩
         | Except.error e => Outcome.err e ⟨Option.none, [], [b], efs⟩))
    ∧ (∀ (f : ExtFunc) (rest : List ExtFunc) (name : String) (args : List Variable)
        (ac rj : List Permission),
        (f name args ac rj).status = ExternalFuncStatus.SUCCESS →
        searchExternal (f :: rest) name args ac rj = Except.ok (f name args ac rj).value)
    ∧ (∀ (f : ExtFunc) (rest : List ExtFunc) (name : String) (args : List Variable)
        (ac rj : List Permission),
        (f name args ac rj).status = ExternalFuncStatus.REJECTED →
        searchExternal (f :: rest) name args ac rj
          = Except.error "External function rejected.")
    ∧ (∀ (f : ExtFunc) (rest : List ExtFunc) (name : String) (args : List Variable)
        (ac rj : List Permission),
        (f name args ac rj).status = ExternalFuncStatus.NOTFOUND ∨
          (f name args ac rj).status = ExternalFuncStatus.ERROR →
        searchExternal (f :: rest) name args ac rj = searchExternal rest name args ac rj)
    ∧ (∀ (name : String) (args : List Variable) (ac rj : List Permission),
        searchExternal ([] : List ExtFunc) name args ac rj
          = Except.error ("Function not found: " ++ name)) := by
  refine ⟨fun _ _ _ _ => rfl, ?_, ?_, ?_, fun _ _ _ _ => rfl⟩
  · intro f rest name args ac rj h
    simp [searchExternal, h]
  · intro f rest name args ac rj h
    simp [searchExternal, h]
  · intro f rest name args ac rj h
    rcases h with h | h <;> simp [searchExternal, h]

/-- C5 witness: the dispatch-protocol theorem applied to concrete handlers
covering the SUCCESS, REJECTED, NOT_FOUND and ERROR cases. -/
theorem gpsl_C5_dispatch_protocol_witness :
    searchExternal [handlerNum7] "g" [] [] [] = Except.ok (some (Variable.Number 7))
    ∧ searchExternal [handlerRejected] "g" [] [] []
        = Except.error "External function rejected."
    ∧ searchExternal (handlerNotFound :: [handlerNum7]) "g" [] [] []
        = searchExternal [handlerNum7] "g" [] [] []
    ∧ searchExternal (handlerError :: [handlerNum7]) "g" [] [] []
        = searchExternal [handlerNum7] "g" [] [] [] :=
  ⟨gpsl_C5_dispatch_protocol.2.1 handlerNum7 [] "g" [] [] [] rfl,
   gpsl_C5_dispatch_protocol.2.2.1 handlerRejected [] "g" [] [] [] rfl,
   gpsl_C5_dispatch_protocol.2.2.2.1 handlerNotFound [handlerNum7] "g" [] [] [] (Or.inl rfl),
   gpsl_C5_dispatch_protocol.2.2.2.1 handlerError [handlerNum7] "g" [] [] [] (Or.inr rfl)⟩

/-- C6: the claim says a ReturnSentinel produced by a While or For body stops
the loop immediately and propagates as the loop result.  The code discards
the body result (`self.evaluate(stmt.clone())?;`): in `sC6` the first
iteration of `whileRetNode` yields `Return 5`, yet the loop keeps going,
runs a second iteration (the counter `i` reaches 2, visible in the final
frame stack) and finishes with `Ok(None)` instead of the sentinel.  The
final stack also shows the block frame leaked by the sentinel exit of the
body. -/
theorem gpsl_C6_loops_discard_return_sentinel :
    (evaluate 100 sC6 (EvalTask.node whileRetNode)).resultValue = some Option.none
    ∧ (evaluate 100 sC6 (EvalTask.node whileRetNode)).blocksAfter
        = some [⟨[], [], [], false⟩,
                ⟨[], [], [("i", ⟨"i", Variable.Number 2, ⟨true⟩⟩)], true⟩] :=
  ⟨rfl, rfl⟩

/-- C7 counterexample: the claim says a VariableRef that resolves in no
reachable frame fails with UnboundVariable rather than crashing.  Evaluating
`Lvar x` over a single empty frame panics (the `unwrap` on the failed scan);
no error value is produced. -/
theorem gpsl_C7_unbound_variable_panics :
    evaluate 3 sUnboundFrame (EvalTask.node (Node.Lvar "x")) = Outcome.panic unwrapMsg := rfl

/-- C7 amended: variable resolution and assignment scan frames from most
recent outward and stop after (inclusive of) the first call-boundary frame,
exactly as the spec-side `resolveSpec` describes (so a callee never sees
caller locals while nested non-call blocks see all enclosing locals of their
call); but when the scan fails, both a VariableRef and an assignment panic
(the `unwrap` on the scan result) instead of failing with an UnboundVariable
error. -/
theorem gpsl_C7_scan_rule :
    (∀ (s : GPSL) (name : String), s.get_local_var name = resolveSpec s.blocks name)
    ∧ (∀ (bs : List Block) (name : String) (v : Variable),
        (assign_var_aux bs name v = Option.none ↔ resolveSpec bs name = Option.none))
    ∧ (∀ (fuel : Nat) (s : GPSL) (name : String),
        resolveSpec s.blocks name = Option.none →
        evaluate (Nat.succ fuel) s (EvalTask.node (Node.Lvar name)) = Outcome.panic unwrapMsg)
    ∧ (∀ (fuel : Nat) (s : GPSL) (name : String),
        resolveSpec s.blocks name = Option.none →
        evaluate (Nat.succ (Nat.succ fuel)) s
          (EvalTask.node (Node.Operator NodeKind.ASSIGN (Node.Lvar name) (Node.Number 0)))
          = Outcome.panic unwrapMsg) := by
  have key : ∀ (bs : List Block) (name : String),
      get_local_var_aux bs name = resolveSpec bs name := by
    intro bs name
    induction bs with
    | nil => rfl
    | cons b rest ih =>
      cases hs : b.is_split <;> cases hl : lookupVar b.vars name <;>
        simp [get_local_var_aux, resolveSpec, framesUpToBoundary, firstMatch, hs, hl, ih]
  have key2 : ∀ (bs : List Block) (name : String) (v : Variable),
      (assign_var_aux bs name v = Option.none ↔ resolveSpec bs name = Option.none) := by
    intro bs name v
    induction bs with
    | nil => simp [assign_var_aux, resolveSpec, framesUpToBoundary, firstMatch]
    | cons b rest ih =>
      cases hs : b.is_split <;> cases hl : lookupVar b.vars name <;>
        cases hr : assign_var_aux rest name v <;>
          simp_all [assign_var_aux, resolveSpec, framesUpToBoundary, firstMatch, hs, hl, hr]
  refine ⟨fun s name => key s.blocks name, key2, ?_, ?_⟩
  · intro fuel s name h
    have hg : s.get_local_var name = Option.none := by rw [GPSL.get_local_var, key, h]
    simp [evaluate, hg]
  · intro fuel s name h
    have ha : assign_var_aux s.blocks name (Variable.Number 0) = Option.none :=
      (key2 s.blocks name (Variable.Number 0)).mpr h
    show (match GPSL.assign_local_var s name (Variable.Number 0) with
          | some s2 => Outcome.ok Option.none s2
          | Option.none => Outcome.panic unwrapMsg) = _
    simp [GPSL.assign_local_var, ha]

/-- C7 witness: the scan-rule theorem applied to the name `y` over a single
empty call-boundary frame, for both the VariableRef and the assignment
conjunct. -/
theorem gpsl_C7_scan_rule_witness :
    evaluate 3 sUnboundFrame (EvalTask.node (Node.Lvar "y")) = Outcome.panic unwrapMsg
    ∧ evaluate 4 sUnboundFrame
        (EvalTask.node (Node.Operator NodeKind.ASSIGN (Node.Lvar "y") (Node.Number 0)))
        = Outcome.panic unwrapMsg :=
  ⟨gpsl_C7_scan_rule.2.2.1 2 sUnboundFrame "y" (by decide),
   gpsl_C7_scan_rule.2.2.2 2 sUnboundFrame "y" (by decide)⟩

/-- C8 counterexample: the claim says DIV by zero fails with the
DivisionByZero error and an underflowing SUB fails with the
ArithmeticUnderflow error.  The code panics in both cases (usize division by
zero and debug-build subtraction overflow); no error value of either kind is
ever produced. -/
theorem gpsl_C8_div_zero_and_underflow_panic :
    evaluate 5 sArith (EvalTask.node
        (Node.Operator NodeKind.DIV (Node.Number 4) (Node.Number 0)))
      = Outcome.panic "attempt to divide by zero"
    ∧ evaluate 5 sArith (EvalTask.node
        (Node.Operator NodeKind.SUB (Node.Number 3) (Node.Number 7)))
      = Outcome.panic "attempt to subtract with overflow" :=
  ⟨rfl, rfl⟩

/-- C8 amended: DIV on Numbers truncates toward zero on the unsigned domain
(`l / r` is natural-number division); DIV with a zero right operand panics
with the division-by-zero abort rather than returning a DivisionByZero
error; SUB whose result would be negative panics with the subtraction
overflow abort (debug-build usize semantics) rather than returning an
ArithmeticUnderflow error; in-range SUB yields the exact non-negative
difference, never a wrapped value. -/
theorem gpsl_C8_arithmetic :
    (∀ (fuel : Nat) (s : GPSL) (l r : Nat), r ≠ 0 →
      evaluate (Nat.succ (Nat.succ fuel)) s
        (EvalTask.node (Node.Operator NodeKind.DIV (Node.Number l) (Node.Number r)))
      = Outcome.ok (some (Variable.Number (l / r))) s)
    ∧ (∀ (fuel : Nat) (s : GPSL) (l : Nat),
        evaluate (Nat.succ (Nat.succ fuel)) s
          (EvalTask.node (Node.Operator NodeKind.DIV (Node.Number l) (Node.Number 0)))
        = Outcome.panic "attempt to divide by zero")
    ∧ (∀ (fuel : Nat) (s : GPSL) (l r : Nat), r ≤ l →
        evaluate (Nat.succ (Nat.succ fuel)) s
          (EvalTask.node (Node.Operator NodeKind.SUB (Node.Number l) (Node.Number r)))
        = Outcome.ok (some (Variable.Number (l - r))) s)
    ∧ (∀ (fuel : Nat) (s : GPSL) (l r : Nat), l < r →
        evaluate (Nat.succ (Nat.succ fuel)) s
          (EvalTask.node (Node.Operator NodeKind.SUB (Node.Number l) (Node.Number r)))
        = Outcome.panic "attempt to subtract with overflow") := by
  refine ⟨?_, fun _ _ _ => rfl, ?_, ?_⟩
  · intro fuel s l r h
    show (if r = 0 then Outcome.panic "attempt to divide by zero"
          else Outcome.ok (some (Variable.Number (l / r))) s) = _
    rw [if_neg h]
  · intro fuel s l r h
    show (if r ≤ l then Outcome.ok (some (Variable.Number (l - r))) s
          else Outcome.panic "attempt to subtract with overflow") = _
    rw [if_pos h]
  · intro fuel s l r h
    show (if r ≤ l then Outcome.ok (some (Variable.Number (l - r))) s
          else Outcome.panic "attempt to subtract with overflow") = _
    rw [if_neg (Nat.not_le.mpr h)]

/-- C8 witness: the arithmetic theorem applied to 5 DIV 2 (truncation), 7 SUB
3 (in range) and 3 SUB 7 (underflow panic). -/
theorem gpsl_C8_arithmetic_witness :
    evaluate 2 sArith (EvalTask.node
        (Node.Operator NodeKind.DIV (Node.Number 5) (Node.Number 2)))
      = Outcome.ok (some (Variable.Number 2)) sArith
    ∧ evaluate 2 sArith (EvalTask.node
        (Node.Operator NodeKind.SUB (Node.Number 7) (Node.Number 3)))
      = Outcome.ok (some (Variable.Number 4)) sArith
    ∧ evaluate 2 sArith (EvalTask.node
        (Node.Operator NodeKind.SUB (Node.Number 3) (Node.Number 7)))
      = Outcome.panic "attempt to subtract with overflow" :=
  ⟨gpsl_C8_arithmetic.1 0 sArith 5 2 (by decide),
   gpsl_C8_arithmetic.2.2.1 0 sArith 7 3 (by decide),
   gpsl_C8_arithmetic.2.2.2 0 sArith 3 7 (by decide)⟩

/-- C9 counterexample: the claim says the parent permission sets are restored
exactly on block exit.  When a block exits through a ReturnSentinel the code
returns before its `pop_front`: after evaluating an annotated block (accept
and reject both empty) whose statement is `Return 1`, the annotation frame is
still on top of the stack, so the parent frame `bAdm` (accept Administrator)
is not the active frame again. -/
theorem gpsl_C9_block_exit_not_restored_on_return :
    (evaluate 10 sC9x (EvalTask.node (Node.Block [Node.Return (Node.Number 1)]
        (some (Node.Permission [] []))))).blocksAfter
      = some [⟨[], [], [], false⟩, bAdm] := rfl

/-- C9 amended: a Block carrying a permission annotation uses exactly the
parsed annotation pair, fully replacing the inherited sets (first conjunct:
the probe handler called inside the block receives precisely the annotation
sets, whatever the enclosing frame holds); a Block without an annotation
copies the enclosing frame pair unchanged (third conjunct); a function-call
frame copies the caller top-frame pair at call time (fourth conjunct); and
the parent frame is restored exactly when the block completes normally
(second conjunct) — but not on a ReturnSentinel or error exit, where the
block frame is left on the stack. -/
theorem gpsl_C9_permission_resolution :
    (∀ (b : Block) (acc rej : List String),
      (evaluate 10 (statePerm b) (EvalTask.node (Node.Block [Node.Call "ext" []]
        (some (Node.Permission acc rej))))).resultValue
      = some (some (Variable.Return (Variable.Text
          (encodePerms (acc.map Permission.fromString) (rej.map Permission.fromString))))))
    ∧ (∀ (b : Block) (acc rej : List String),
        (evaluate 10 (stateUnit b) (EvalTask.node (Node.Block [Node.Call "ext" []]
          (some (Node.Permission acc rej))))).blocksAfter = some [b])
    ∧ (∀ (b : Block),
        (evaluate 10 (statePerm b) (EvalTask.node
          (Node.Block [Node.Call "ext" []] Option.none))).resultValue
        = some (some (Variable.Return (Variable.Text (encodePerms b.accept b.reject)))))
    ∧ (∀ (b : Block),
        (evaluate 10 (stateCallPerm b) (EvalTask.node (Node.Call "f" []))).resultValue
        = some (some (Variable.Text (encodePerms b.accept b.reject)))) :=
  ⟨fun _ _ _ => rfl, fun _ _ _ => rfl, fun _ => rfl, fun _ => rfl⟩

/-- C10: every `run` call begins by pushing the initial call-boundary frame
whose accept set is exactly Administrator and StdIo and whose reject set is
empty (first four conjuncts), and a top-level external call made by the body
therefore hands the handler precisely those two sets (last conjunct: the
probe handler reports the pair it received). -/
theorem gpsl_C10_initial_permissions :
    (∀ (fuel : Nat) (s : GPSL) (fname : String),
      run fuel s fname
        = runWithTable fuel { s with blocks := initialBlock :: s.blocks } fname)
    ∧ initialBlock.accept = [Permission.Administrator, Permission.StdIo]
    ∧ initialBlock.reject = []
    ∧ initialBlock.is_split = true
    ∧ (run 10 sC10 "main").valueOf
        = some (Variable.Text (encodePerms [Permission.Administrator, Permission.StdIo] [])) :=
  ⟨fun _ _ _ => rfl, rfl, rfl, rfl, rfl⟩
